import Mathlib

/-
Verification of the wsl-multi-launcher grid-layout engine and
launch/arrange orchestration, embedded shallowly from the Rust sources
(src/apps/wsl-multi-launcher/src/{layout,windows,config,main}.rs).

Machine-integer conventions of the embedding:
  * `u32` values are `Nat`; the Rust cast `usize as u32` is `% 2^32`
    (a defined truncation in Rust), and the Rust cast `u32 as i32` is
    the bit-reinterpretation `toI32` below.
  * `i32` products and sums in the layout arithmetic wrap to
    two's-complement via `wrapI32` (Rust release semantics; a debug
    build would panic exactly where the wrapped value differs from the
    mathematical one, so every claim below either carries hypotheses
    keeping the results in `i32` range — where both semantics agree
    with the mathematical value — or is evaluated at inputs where no
    overflow occurs).
  * Rust `i32` division truncates toward zero, which is `Int.tdiv`.
  * Rust division by zero panics (as does `i32::MIN / -1`); `Nat`/`Int`
    division by zero yields `n % 0 = n`, `tdiv 0 = 0`. All claims
    assume `cols, rows ≥ 1`, and none reaches the `i32::MIN / -1`
    overflow, so these divergences are outside every statement proved
    here.
-/

namespace WslLauncher

/-- `Rect` from layout.rs: integer position and size (`i32` fields). -/
structure Rect where
  x : Int
  y : Int
  width : Int
  height : Int
deriving DecidableEq, Repr, Inhabited

/-- `BoundsInfo` from layout.rs (`i32` fields). -/
structure BoundsInfo where
  x : Int
  y : Int
  width : Int
  height : Int
deriving DecidableEq, Repr, Inhabited

/-- `DisplayInfo` from layout.rs. -/
structure DisplayInfo where
  device_name : String
  primary : Bool
  bounds : BoundsInfo
  working_area : BoundsInfo
deriving DecidableEq, Repr, Inhabited

/-- The Rust cast `u32 as i32`: bit-reinterpretation of a `u32` value. -/
def toI32 (n : Nat) : Int :=
  if n % 2 ^ 32 < 2 ^ 31 then ((n % 2 ^ 32 : Nat) : Int)
  else ((n % 2 ^ 32 : Nat) : Int) - 2 ^ 32

/-- Two's-complement wrap of an `i32` arithmetic result into
`[-2^31, 2^31)` (Rust release overflow semantics). -/
def wrapI32 (n : Int) : Int := (n + 2 ^ 31) % 2 ^ 32 - 2 ^ 31

/-- `n` is representable as an `i32` value. -/
abbrev isI32 (n : Int) : Prop := -2 ^ 31 ≤ n ∧ n < 2 ^ 31

/-- Every field of `r` is representable as an `i32` value, i.e. `r` is a
rectangle the Rust `Rect` type can actually hold. -/
abbrev rectI32 (r : Rect) : Prop :=
  isI32 r.x ∧ isI32 r.y ∧ isI32 r.width ∧ isI32 r.height

/-- `GridLayout` from layout.rs: `cols` and `rows` are `u32` values. -/
structure GridLayout where
  cols : Nat
  rows : Nat
  display_area : Rect
deriving DecidableEq, Repr

/-- `GridLayout::new` from layout.rs. -/
def GridLayout.new (cols rows : Nat) (display_area : Rect) : GridLayout :=
  ⟨cols, rows, display_area⟩

/-- `GridLayout::calculate_position` from layout.rs:
`col = (index as u32) % cols`, `row = (index as u32) / cols`,
`cell_width = width / cols as i32`, `cell_height = height / rows as i32`,
rectangle at `display_origin + (col * cell_width, row * cell_height)`.
The `i32` multiplications and additions wrap via `wrapI32`; the cell
divisions stay `Int.tdiv` because `i32` division never wraps (its only
overflow, `i32::MIN / -1`, panics in Rust and is outside every claim). -/
def GridLayout.calculate_position (g : GridLayout) (index : Nat) : Rect :=
  let col := (index % 2 ^ 32) % g.cols
  let row := (index % 2 ^ 32) / g.cols
  let cell_width := g.display_area.width.tdiv (toI32 g.cols)
  let cell_height := g.display_area.height.tdiv (toI32 g.rows)
  { x := wrapI32 (g.display_area.x + wrapI32 (toI32 col * cell_width))
    y := wrapI32 (g.display_area.y + wrapI32 (toI32 row * cell_height))
    width := cell_width
    height := cell_height }

/-- `GridLayout::calculate_all_positions` from layout.rs:
`(0..count).map(|i| self.calculate_position(i)).collect()`. -/
def GridLayout.calculate_all_positions (g : GridLayout) (count : Nat) : List Rect :=
  (List.range count).map g.calculate_position

/-- `GridLayout::max_windows` from layout.rs (`u32` multiplication). -/
def GridLayout.max_windows (g : GridLayout) : Nat :=
  (g.cols * g.rows) % 2 ^ 32

/-- The claimed closed form for `calculate_position`, written exactly from
the spec's words over mathematical integers: column `index mod cols`, row
`index div cols`, cell `width tdiv cols × height tdiv rows` (truncating
division, as the spec's edge policy demands), origin shifted by the cell. -/
def specPosition (g : GridLayout) (index : Nat) : Rect :=
  let cell_width := g.display_area.width.tdiv (g.cols : Int)
  let cell_height := g.display_area.height.tdiv (g.rows : Int)
  { x := g.display_area.x + ((index % g.cols : Nat) : Int) * cell_width
    y := g.display_area.y + ((index / g.cols : Nat) : Int) * cell_height
    width := cell_width
    height := cell_height }

theorem toI32_of_lt {n : Nat} (h : n < 2 ^ 31) : toI32 n = (n : Int) := by
  unfold toI32
  rw [Nat.mod_eq_of_lt (by omega)]
  rw [if_pos (by omega)]

theorem wrapI32_eq_self {n : Int} (h1 : -2 ^ 31 ≤ n) (h2 : n < 2 ^ 31) :
    wrapI32 n = n := by
  unfold wrapI32
  rw [Int.emod_eq_of_lt (by omega) (by omega)]
  omega

/-- A grid cell offset cannot overflow `i32`: for `k < c` and an `i32`
width `w`, `|k * (w tdiv c)| ≤ (c-1) * (|w| / c) < 2^31`. -/
theorem natAbs_mul_tdiv_lt (k c : Nat) (w : Int) (hc : 1 ≤ c) (hk : k < c)
    (hw : w.natAbs ≤ 2 ^ 31) :
    ((k : Int) * (w.tdiv (c : Int))).natAbs < 2 ^ 31 := by
  rw [Int.natAbs_mul, Int.natAbs_ofNat, Int.natAbs_tdiv, Int.natAbs_ofNat]
  show k * (w.natAbs / c) < 2 ^ 31
  rcases Nat.eq_zero_or_pos (w.natAbs / c) with h0 | h0
  · rw [h0, Nat.mul_zero]
    norm_num
  · have hq : c * (w.natAbs / c) ≤ w.natAbs := Nat.mul_div_le w.natAbs c
    have hkq : k * (w.natAbs / c) ≤ (c - 1) * (w.natAbs / c) :=
      Nat.mul_le_mul_right _ (by omega)
    have hsub : (c - 1) * (w.natAbs / c)
        = c * (w.natAbs / c) - (w.natAbs / c) :=
      Nat.sub_one_mul c (w.natAbs / c)
    omega

theorem wrapI32_mul_tdiv (k c : Nat) (w : Int) (hc : 1 ≤ c) (hk : k < c)
    (hw : w.natAbs ≤ 2 ^ 31) :
    wrapI32 ((k : Int) * (w.tdiv (c : Int))) = (k : Int) * (w.tdiv (c : Int)) := by
  have h := natAbs_mul_tdiv_lt k c w hc hk hw
  exact wrapI32_eq_self (by omega) (by omega)

/-
windows.rs: the external PowerShell mover is a black box; its observable
outcome per invocation is an exit status plus a stderr text, modelled by
`CmdOutput`. `move_window` / `move_window_with_retry` are embedded from
the source over that outcome; the `Nat → CmdOutput` argument gives the
outcome of the i-th external invocation.
-/

/-- Observable outcome of one invocation of the external `move-window.ps1`
process: `success` is `output.status.success()`, `stderr` its stderr text. -/
structure CmdOutput where
  success : Bool
  stderr : String
deriving DecidableEq, Repr, Inhabited

/-- Does `pat` occur as a leading run of `s`? (character-list helper). -/
def startsWithChars : List Char → List Char → Bool
  | [], _ => true
  | _ :: _, [] => false
  | a :: as, b :: bs => a == b && startsWithChars as bs

/-- Does `pat` occur contiguously anywhere in `s`? (character-list helper). -/
def hasSubChars (pat : List Char) : List Char → Bool
  | [] => pat.isEmpty
  | b :: bs => startsWithChars pat (b :: bs) || hasSubChars pat bs

/-- Rust `str::contains(pat)`: substring occurrence test. -/
def strContains (s pat : String) : Bool :=
  hasSubChars pat.data s.data

/-- `move_window` from windows.rs, as a function of the external mover's
outcome `out` for this invocation: on non-success whose stderr contains
"Window not found" it returns `Ok(())`; on any other non-success it bails
with the stderr; on success it returns `Ok(())`. -/
def move_window (title : String) (rect : Rect) (out : CmdOutput) :
    Except String Unit :=
  if out.success = false then
    if strContains out.stderr "Window not found" then Except.ok ()
    else Except.error ("move-window.ps1 failed: " ++ out.stderr)
  else Except.ok ()

/-- The loop of `move_window_with_retry` from windows.rs, at loop counter
`i` (Rust: `for attempt in i..max_retries`): on `Ok` return `Ok`; on `Err`
retry while `attempt < max_retries - 1`, else return the error; falling
out of the loop returns `Ok(())`. `outs i` is the external outcome seen by
the i-th call to `move_window`. -/
def retryLoop (title : String) (rect : Rect) (outs : Nat → CmdOutput)
    (max_retries : Nat) (i : Nat) : Except String Unit :=
  if _h : i < max_retries then
    match move_window title rect (outs i) with
    | Except.ok _ => Except.ok ()
    | Except.error e =>
      if i < max_retries - 1 then retryLoop title rect outs max_retries (i + 1)
      else Except.error e
  else Except.ok ()
termination_by max_retries - i
decreasing_by omega

/-- `move_window_with_retry` from windows.rs: run the loop from attempt 0. -/
def move_window_with_retry (title : String) (rect : Rect)
    (outs : Nat → CmdOutput) (max_retries : Nat) : Except String Unit :=
  retryLoop title rect outs max_retries 0

/-- `get_display_working_area` from windows.rs: index the display list,
bail with "Display i not found" when absent, else return the working-area
rectangle. -/
def get_display_working_area (displays : List DisplayInfo)
    (display_index : Nat) : Except String Rect :=
  match displays.get? display_index with
  | none => Except.error ("Display " ++ toString display_index ++ " not found")
  | some display =>
    Except.ok ⟨display.working_area.x, display.working_area.y,
               display.working_area.width, display.working_area.height⟩

/-
config.rs: `LayoutConfig::parse_grid`, `WindowConfig`, `Config`, `validate`.
-/

/-- Rust `str::split('x')` over the characters of a string: every
occurrence of the separator splits, empty pieces kept. -/
def splitOnChar (sep : Char) : List Char → List (List Char)
  | [] => [[]]
  | a :: rest =>
    let r := splitOnChar sep rest
    if a = sep then [] :: r
    else
      match r with
      | [] => [[a]]
      | h :: t => (a :: h) :: t

/-- Numeric value of a digit run (most significant first). -/
def digitsToNat (cs : List Char) : Nat :=
  cs.foldl (fun acc c => acc * 10 + (c.toNat - 48)) 0

/-- Rust `str::parse::<u32>()`: optional leading '+', then one or more
ASCII digits, value within `u32` range; anything else is `none`. -/
def parseU32 (cs : List Char) : Option Nat :=
  let ds := match cs with
    | '+' :: rest => rest
    | _ => cs
  if !ds.isEmpty && ds.all Char.isDigit then
    let n := digitsToNat ds
    if n < 2 ^ 32 then some n else none
  else none

/-- `LayoutConfig` from config.rs: the grid text, e.g. "2x4". -/
structure LayoutConfig where
  grid : String
deriving DecidableEq, Repr, Inhabited

/-- `LayoutConfig::parse_grid` from config.rs: split the grid text on 'x',
demand exactly two parts, parse each as `u32`. -/
def LayoutConfig.parse_grid (l : LayoutConfig) : Except String (Nat × Nat) :=
  match splitOnChar 'x' l.grid.data with
  | [c, r] =>
    match parseU32 c, parseU32 r with
    | some cols, some rows => Except.ok (cols, rows)
    | none, _ => Except.error "Invalid column count"
    | some _, none => Except.error "Invalid row count"
  | _ =>
    Except.error ("Invalid grid format: " ++ l.grid ++
      ". Expected format: 'COLSxROWS' (e.g. '2x4')")

/-- `WindowConfig` from config.rs. -/
structure WindowConfig where
  name : String
  command : String
  working_dir : Option String
deriving DecidableEq, Repr, Inhabited

/-- `Config` from config.rs. -/
structure Config where
  wsl_distribution : String
  target_display : Nat
  layout : LayoutConfig
  windows : List WindowConfig
deriving DecidableEq, Repr, Inhabited

/-- `validate` from config.rs: parse the grid, reject an empty window
list, reject more windows than grid cells, reject duplicate names.
(The Rust `cols * rows` is a `u32` multiplication; the claims proved here
only depend on it through grids within `u32` range.) -/
def validate (c : Config) : Except String Unit :=
  match c.layout.parse_grid with
  | Except.error e => Except.error e
  | Except.ok (cols, rows) =>
    let max_windows := cols * rows
    if c.windows.isEmpty then
      Except.error "At least one window must be configured"
    else if max_windows < c.windows.length then
      Except.error "Too many windows configured"
    else if (c.windows.map WindowConfig.name).Nodup then Except.ok ()
    else Except.error "Duplicate window name"

/-
main.rs, `Commands::Launch` handler: compute all positions, then loop
over the windows launching each (recording OK/FAILED and continuing on
error), then — unless `no_arrange` — loop again moving each with
`move_window_with_retry(name, pos, 3)` (again recording OK/FAILED and
continuing on error). Launch outcomes and mover outcomes come from
external processes, abstracted as the oracles `launchRes` (per window)
and `moverOuts` (per window, per attempt).
-/

/-- `true` exactly on `Ok`: the per-window "OK"/"FAILED" report bit. -/
def exceptOk {ε α : Type} : Except ε α → Bool
  | Except.ok _ => true
  | Except.error _ => false

/-- The `Commands::Launch` handler loops from main.rs: returns the
per-window (name, succeeded?) reports of the launch loop and of the
arrange loop (empty when `no_arrange`). Both loops visit every window in
configured order and continue past per-window failures. -/
def launchCommand (ws : List WindowConfig) (g : GridLayout)
    (no_arrange : Bool) (launchRes : Nat → Except String Unit)
    (moverOuts : Nat → Nat → CmdOutput) :
    List (String × Bool) × List (String × Bool) :=
  let positions := g.calculate_all_positions ws.length
  let launchReport := ws.enum.map fun p => (p.2.name, exceptOk (launchRes p.1))
  let moveReport :=
    if no_arrange then []
    else ws.enum.map fun p =>
      (p.2.name,
        exceptOk (move_window_with_retry p.2.name (positions.getD p.1 default)
          (moverOuts p.1) 3))
  (launchReport, moveReport)

/-- C6: on a 2x2 grid over display (0,0,1920,1080), the four computed
cells are (0,0,960,540), (960,0,960,540), (0,540,960,540),
(960,540,960,540) in that order; on a 2x4 grid over the same display,
position 2 is (0,270,960,270); on a 2x2 grid over the offset display
(1920,0,1920,1080), position 1 is (2880,0,960,540). -/
theorem claim_C6 :
    (GridLayout.new 2 2 ⟨0, 0, 1920, 1080⟩).calculate_all_positions 4 =
      [⟨0, 0, 960, 540⟩, ⟨960, 0, 960, 540⟩,
       ⟨0, 540, 960, 540⟩, ⟨960, 540, 960, 540⟩] ∧
    (GridLayout.new 2 4 ⟨0, 0, 1920, 1080⟩).calculate_position 2 =
      ⟨0, 270, 960, 270⟩ ∧
    (GridLayout.new 2 2 ⟨1920, 0, 1920, 1080⟩).calculate_position 1 =
      ⟨2880, 0, 960, 540⟩ := by
  refine ⟨?_, ?_, ?_⟩ <;> decide

/-- C7: the layout functions are deterministic — two calls of
`calculate_position` (resp. `calculate_all_positions`) with identical
grid, display rectangle and index/count return identical rectangles. -/
theorem claim_C7 (g1 g2 : GridLayout) (i1 i2 n1 n2 : Nat)
    (hg : g1 = g2) (hi : i1 = i2) (hn : n1 = n2) :
    g1.calculate_position i1 = g2.calculate_position i2 ∧
      g1.calculate_all_positions n1 = g2.calculate_all_positions n2 := by
  subst hg
  subst hi
  subst hn
  exact ⟨rfl, rfl⟩

theorem claim_C7_witness :
    (GridLayout.new 2 2 ⟨0, 0, 1920, 1080⟩).calculate_position 3 =
      (GridLayout.new 2 2 ⟨0, 0, 1920, 1080⟩).calculate_position 3 ∧
    (GridLayout.new 2 2 ⟨0, 0, 1920, 1080⟩).calculate_all_positions 4 =
      (GridLayout.new 2 2 ⟨0, 0, 1920, 1080⟩).calculate_all_positions 4 :=
  claim_C7 _ _ 3 3 4 4 rfl rfl rfl

/-- C1 counterexample: the claim quantifies over every `index <
columns*rows`, but `calculate_position` narrows `index` with the Rust
cast `index as u32`. At `columns = 3`, `rows = 2^31`, display
`(0,0,3,1)` and `index = 2^32 < columns*rows`, the cast sends `index`
to 0, so the computed x is 0 while the claimed closed form gives
`0 + (2^32 mod 3) * (3 tdiv 3) = 1`. -/
theorem claim_C1_counterexample :
    1 ≤ 3 ∧ 1 ≤ 2 ^ 31 ∧ 2 ^ 32 < 3 * 2 ^ 31 ∧
      (GridLayout.new 3 (2 ^ 31) ⟨0, 0, 3, 1⟩).calculate_position (2 ^ 32) ≠
        specPosition (GridLayout.new 3 (2 ^ 31) ⟨0, 0, 3, 1⟩) (2 ^ 32) := by
  refine ⟨by norm_num, by norm_num, by norm_num, ?_⟩
  decide

/-- C1 (amended): for `1 ≤ columns < 2^31`, `1 ≤ rows < 2^31`,
`index < columns*rows` with `index < 2^32` (so that the `usize as u32`
and `u32 as i32` casts in the source are value-preserving), every
display rectangle whose fields are `i32`-representable, and provided
the two claimed coordinates themselves fit in `i32` (so the source's
`i32` additions do not overflow), `calculate_position` returns exactly
the rectangle with
`x = display.x + (index mod columns) * (display.width tdiv columns)`,
`y = display.y + (index div columns) * (display.height tdiv rows)`,
`width = display.width tdiv columns`, `height = display.height tdiv rows`,
with truncating integer division. -/
theorem claim_C1 (g : GridLayout) (index : Nat)
    (hc : 1 ≤ g.cols) (hr : 1 ≤ g.rows)
    (hc31 : g.cols < 2 ^ 31) (hr31 : g.rows < 2 ^ 31)
    (hidx : index < g.cols * g.rows) (hidx32 : index < 2 ^ 32)
    (hrect : rectI32 g.display_area)
    (hx : isI32 (specPosition g index).x)
    (hy : isI32 (specPosition g index).y) :
    g.calculate_position index = specPosition g index := by
  obtain ⟨hrx, hry, hrw, hrh⟩ := hrect
  have hm : index % 2 ^ 32 = index := Nat.mod_eq_of_lt hidx32
  have hcpos : 0 < g.cols := hc
  have hcol : index % g.cols < g.cols := Nat.mod_lt index hcpos
  have hrow : index / g.cols < g.rows := Nat.div_lt_of_lt_mul hidx
  have hwabs : g.display_area.width.natAbs ≤ 2 ^ 31 := by
    obtain ⟨hwa, hwb⟩ := hrw
    omega
  have hhabs : g.display_area.height.natAbs ≤ 2 ^ 31 := by
    obtain ⟨hha, hhb⟩ := hrh
    omega
  have hpx := wrapI32_mul_tdiv (index % g.cols) g.cols
    g.display_area.width hc hcol hwabs
  have hpy := wrapI32_mul_tdiv (index / g.cols) g.rows
    g.display_area.height hr hrow hhabs
  simp only [specPosition] at hx hy
  obtain ⟨hx1, hx2⟩ := hx
  obtain ⟨hy1, hy2⟩ := hy
  simp only [GridLayout.calculate_position, specPosition, hm,
    toI32_of_lt hc31, toI32_of_lt hr31,
    toI32_of_lt (lt_trans hcol hc31), toI32_of_lt (lt_trans hrow hr31)]
  rw [hpx, hpy, wrapI32_eq_self hx1 hx2, wrapI32_eq_self hy1 hy2]

theorem claim_C1_witness :
    (GridLayout.new 2 2 ⟨0, 0, 1920, 1080⟩).calculate_position 1 =
      specPosition (GridLayout.new 2 2 ⟨0, 0, 1920, 1080⟩) 1 :=
  claim_C1 (GridLayout.new 2 2 ⟨0, 0, 1920, 1080⟩) 1 (by decide) (by decide)
    (by decide) (by decide) (by decide) (by decide) (by decide) (by decide)
    (by decide)

/-- C2: for every grid layout and `n ≤ columns*rows`,
`calculate_all_positions n` has length exactly `n` and its i-th element
is `calculate_position i` for every `i < n`, in that order. -/
theorem claim_C2 (g : GridLayout) (n : Nat) (hn : n ≤ g.cols * g.rows) :
    (g.calculate_all_positions n).length = n ∧
      ∀ i (h : i < (g.calculate_all_positions n).length),
        (g.calculate_all_positions n)[i] = g.calculate_position i := by
  have _ := hn
  constructor
  · simp [GridLayout.calculate_all_positions]
  · intro i h
    simp [GridLayout.calculate_all_positions]

theorem claim_C2_witness :
    ((GridLayout.new 2 2 ⟨0, 0, 800, 600⟩).calculate_all_positions 3).length
        = 3 ∧
      ((GridLayout.new 2 2 ⟨0, 0, 800, 600⟩).calculate_all_positions 3).getD
          2 default =
        (GridLayout.new 2 2 ⟨0, 0, 800, 600⟩).calculate_position 2 := by
  have h := claim_C2 (GridLayout.new 2 2 ⟨0, 0, 800, 600⟩) 3 (by decide)
  refine ⟨h.1, ?_⟩
  have h2 := h.2 2 (by rw [h.1]; norm_num)
  rw [List.getD_eq_getElem?_getD, List.getElem?_eq_getElem (by rw [h.1]; norm_num)]
  simpa using h2

theorem retryLoop_not_lt (title : String) (r : Rect) (outs : Nat → CmdOutput)
    (m i : Nat) (h : ¬ i < m) : retryLoop title r outs m i = Except.ok () := by
  unfold retryLoop
  rw [dif_neg h]

theorem retryLoop_ok (title : String) (r : Rect) (outs : Nat → CmdOutput)
    (m i : Nat) (h : i < m)
    (hok : move_window title r (outs i) = Except.ok ()) :
    retryLoop title r outs m i = Except.ok () := by
  unfold retryLoop
  rw [dif_pos h, hok]

theorem retryLoop_err_retry (title : String) (r : Rect)
    (outs : Nat → CmdOutput) (m i : Nat) (e : String) (h : i < m)
    (h2 : i < m - 1) (herr : move_window title r (outs i) = Except.error e) :
    retryLoop title r outs m i = retryLoop title r outs m (i + 1) := by
  conv_lhs => unfold retryLoop
  rw [dif_pos h, herr]
  simp [h2]

theorem retryLoop_err_last (title : String) (r : Rect)
    (outs : Nat → CmdOutput) (m i : Nat) (e : String) (h : i < m)
    (h2 : ¬ i < m - 1) (herr : move_window title r (outs i) = Except.error e) :
    retryLoop title r outs m i = Except.error e := by
  unfold retryLoop
  rw [dif_pos h, herr]
  simp [h2]

/-- C3: with 3 maximum attempts, if `move_window` fails on attempts 0, 1
and 2, `move_window_with_retry` returns the failure carrying the last
(attempt 2) error; if it fails on every attempt before some `k < 3` and
succeeds on attempt `k`, it returns success with no visible error. -/
theorem claim_C3 (title : String) (r : Rect) (outs : Nat → CmdOutput) :
    (∀ e : String,
      (∃ e0, move_window title r (outs 0) = Except.error e0) →
      (∃ e1, move_window title r (outs 1) = Except.error e1) →
      move_window title r (outs 2) = Except.error e →
      move_window_with_retry title r outs 3 = Except.error e) ∧
    (∀ k, k < 3 →
      (∀ j, j < k → ∃ ej, move_window title r (outs j) = Except.error ej) →
      move_window title r (outs k) = Except.ok () →
      move_window_with_retry title r outs 3 = Except.ok ()) := by
  constructor
  · rintro e ⟨e0, h0⟩ ⟨e1, h1⟩ h2
    unfold move_window_with_retry
    rw [retryLoop_err_retry title r outs 3 0 e0 (by norm_num) (by norm_num) h0]
    rw [retryLoop_err_retry title r outs 3 1 e1 (by norm_num) (by norm_num) h1]
    exact retryLoop_err_last title r outs 3 2 e (by norm_num) (by norm_num) h2
  · intro k hk hpre hok
    unfold move_window_with_retry
    interval_cases k
    · exact retryLoop_ok title r outs 3 0 (by norm_num) hok
    · obtain ⟨e0, h0⟩ := hpre 0 (by norm_num)
      rw [retryLoop_err_retry title r outs 3 0 e0 (by norm_num) (by norm_num) h0]
      exact retryLoop_ok title r outs 3 1 (by norm_num) hok
    · obtain ⟨e0, h0⟩ := hpre 0 (by norm_num)
      obtain ⟨e1, h1⟩ := hpre 1 (by norm_num)
      rw [retryLoop_err_retry title r outs 3 0 e0 (by norm_num) (by norm_num) h0]
      rw [retryLoop_err_retry title r outs 3 1 e1 (by norm_num) (by norm_num) h1]
      exact retryLoop_ok title r outs 3 2 (by norm_num) hok

/-- Mover outcomes where every external invocation hard-fails. -/
def outsAllFail : Nat → CmdOutput := fun _ => ⟨false, "hard failure"⟩

/-- Mover outcomes where invocation 0 hard-fails and later ones succeed. -/
def outsFailThenOk : Nat → CmdOutput :=
  fun i => if i = 0 then ⟨false, "hard failure"⟩ else ⟨true, ""⟩

theorem claim_C3_witness :
    move_window_with_retry "w" ⟨0, 0, 1, 1⟩ outsAllFail 3 =
      Except.error ("move-window.ps1 failed: " ++ "hard failure") ∧
    move_window_with_retry "w" ⟨0, 0, 1, 1⟩ outsFailThenOk 3 =
      Except.ok () := by
  constructor
  · exact (claim_C3 "w" ⟨0, 0, 1, 1⟩ outsAllFail).1 _
      ⟨"move-window.ps1 failed: " ++ "hard failure", rfl⟩
      ⟨"move-window.ps1 failed: " ++ "hard failure", rfl⟩ rfl
  · refine (claim_C3 "w" ⟨0, 0, 1, 1⟩ outsFailThenOk).2 1 (by norm_num) ?_ rfl
    intro j hj
    interval_cases j
    exact ⟨"move-window.ps1 failed: " ++ "hard failure", rfl⟩

/-- C10: calling `move_window_with_retry` with `max_retries = 0` returns
`Ok` without entering the loop body, whatever the external mover would
have answered on any attempt. -/
theorem claim_C10 (title : String) (r : Rect) (outs : Nat → CmdOutput) :
    move_window_with_retry title r outs 0 = Except.ok () := by
  unfold move_window_with_retry
  exact retryLoop_not_lt title r outs 0 0 (by norm_num)

/-- C4: a non-success outcome of the external mover whose stderr contains
"Window not found" is resolved by `move_window` as an immediate `Ok`,
while every other non-success outcome is returned as a hard error — the
two cases are distinguishable. -/
theorem claim_C4 (title : String) (r : Rect) (out : CmdOutput)
    (hfail : out.success = false) :
    (strContains out.stderr "Window not found" = true →
      move_window title r out = Except.ok ()) ∧
    (strContains out.stderr "Window not found" = false →
      move_window title r out =
        Except.error ("move-window.ps1 failed: " ++ out.stderr)) := by
  constructor <;> intro hsub <;> simp [move_window, hfail, hsub]

theorem claim_C4_witness :
    move_window "w" ⟨0, 0, 1, 1⟩ ⟨false, "Error: Window not found"⟩ =
      Except.ok () ∧
    move_window "w" ⟨0, 0, 1, 1⟩ ⟨false, "access denied"⟩ =
      Except.error ("move-window.ps1 failed: " ++ "access denied") :=
  ⟨(claim_C4 "w" ⟨0, 0, 1, 1⟩ ⟨false, "Error: Window not found"⟩ rfl).1
      (by decide),
   (claim_C4 "w" ⟨0, 0, 1, 1⟩ ⟨false, "access denied"⟩ rfl).2 (by decide)⟩

/-- C8: `get_display_working_area` fails exactly when the index is out of
range, and in range returns precisely the working-area rectangle of the
selected display (its `working_area` fields, not its `bounds`). -/
theorem claim_C8 (displays : List DisplayInfo) (idx : Nat) :
    ((∃ e, get_display_working_area displays idx = Except.error e) ↔
      displays.length ≤ idx) ∧
    ∀ (h : idx < displays.length),
      get_display_working_area displays idx =
        Except.ok ⟨displays[idx].working_area.x, displays[idx].working_area.y,
          displays[idx].working_area.width,
          displays[idx].working_area.height⟩ := by
  constructor
  · constructor
    · rintro ⟨e, he⟩
      by_contra hlt
      push_neg at hlt
      unfold get_display_working_area at he
      rw [List.get?_eq_getElem?, List.getElem?_eq_getElem hlt] at he
      simp at he
    · intro hle
      unfold get_display_working_area
      rw [List.get?_eq_getElem?, List.getElem?_eq_none hle]
      exact ⟨_, rfl⟩
  · intro h
    unfold get_display_working_area
    rw [List.get?_eq_getElem?, List.getElem?_eq_getElem h]

/-- A sample display record for concrete instantiation. -/
def sampleDisplay : DisplayInfo :=
  ⟨"DISPLAY1", true, ⟨0, 0, 1920, 1080⟩, ⟨0, 0, 1920, 1040⟩⟩

theorem claim_C8_witness :
    get_display_working_area [sampleDisplay] 0 =
      Except.ok ⟨0, 0, 1920, 1040⟩ :=
  (claim_C8 [sampleDisplay] 0).2 (by norm_num)

/-- C9 counterexample: `parse_grid` succeeds on the grid text "0x2" and
returns a zero column count, so success of `parse_grid` alone does not
guarantee positive dimensions. -/
theorem claim_C9_counterexample :
    LayoutConfig.parse_grid ⟨"0x2"⟩ = Except.ok (0, 2) ∧ ¬ 1 ≤ (0 : Nat) := by
  exact ⟨rfl, by norm_num⟩

/-- C9 (amended): `parse_grid` itself accepts zero dimensions (it parses
any pair of `u32` numerals), but every configuration accepted by
`validate` has positive parsed columns and rows: validation requires at
least one window and at most `columns * rows` windows, which forces
`columns ≥ 1` and `rows ≥ 1`. -/
theorem claim_C9 (c : Config) (cols rows : Nat)
    (hv : validate c = Except.ok ())
    (hp : c.layout.parse_grid = Except.ok (cols, rows)) :
    1 ≤ cols ∧ 1 ≤ rows := by
  unfold validate at hv
  rw [hp] at hv
  by_cases h1 : c.windows.isEmpty
  · simp [h1] at hv
  · by_cases h2 : cols * rows < c.windows.length
    · simp [h1, h2] at hv
    · have hlen : 0 < c.windows.length := by
        rcases hw : c.windows with _ | ⟨w, ws⟩
        · rw [hw] at h1
          simp at h1
        · simp
      have hprod : 0 < cols * rows := lt_of_lt_of_le hlen (not_lt.mp h2)
      constructor
      · by_contra h0
        push_neg at h0
        obtain rfl : cols = 0 := by omega
        simp at hprod
      · by_contra h0
        push_neg at h0
        obtain rfl : rows = 0 := by omega
        simp at hprod

/-- A sample valid configuration for concrete instantiation. -/
def sampleConfig : Config :=
  ⟨"Ubuntu-24.04", 0, ⟨"2x2"⟩, [⟨"a", "bash", none⟩, ⟨"b", "htop", none⟩]⟩

theorem claim_C9_witness : 1 ≤ 2 ∧ 1 ≤ 2 :=
  claim_C9 sampleConfig 2 2 (by rfl) (by rfl)

/-- C5: the `Launch` handler's batch loops are failure-isolated: with
arranging enabled, both the launch report and the move report list every
configured window by name in configured order (so no single failure
aborts the batch, and the handler returns a report rather than raising),
and the i-th reported bit is exactly the success of that window's own
launch (resp. bounded-retry move), unaffected by other windows. -/
theorem claim_C5 (ws : List WindowConfig) (g : GridLayout)
    (launchRes : Nat → Except String Unit)
    (moverOuts : Nat → Nat → CmdOutput) :
    ((launchCommand ws g false launchRes moverOuts).1.map Prod.fst =
      ws.map WindowConfig.name) ∧
    ((launchCommand ws g false launchRes moverOuts).2.map Prod.fst =
      ws.map WindowConfig.name) ∧
    (∀ i (h : i < ws.length),
      (launchCommand ws g false launchRes moverOuts).1[i]? =
        some (ws[i].name, exceptOk (launchRes i)) ∧
      (launchCommand ws g false launchRes moverOuts).2[i]? =
        some (ws[i].name,
          exceptOk (move_window_with_retry ws[i].name
            ((g.calculate_all_positions ws.length).getD i default)
            (moverOuts i) 3))) := by
  have hname : ∀ (f : Nat × WindowConfig → String × Bool),
      (∀ p, (f p).1 = p.2.name) →
      (ws.enum.map f).map Prod.fst = ws.map WindowConfig.name := by
    intro f hf
    rw [List.map_map]
    have hfe : (Prod.fst ∘ f) = fun p : Nat × WindowConfig => p.2.name :=
      funext fun p => hf p
    rw [hfe]
    rw [show (fun p : Nat × WindowConfig => p.2.name) =
        WindowConfig.name ∘ Prod.snd from rfl]
    rw [← List.map_map, List.enum_map_snd]
  refine ⟨hname _ fun p => rfl, ?_, ?_⟩
  · simp only [launchCommand, if_neg (by simp : ¬ false = true)]
    exact hname _ fun p => rfl
  · intro i h
    constructor
    · simp only [launchCommand]
      rw [List.getElem?_map, List.getElem?_enum, List.getElem?_eq_getElem h]
      simp
    · simp only [launchCommand, if_neg (by simp : ¬ false = true)]
      rw [List.getElem?_map, List.getElem?_enum, List.getElem?_eq_getElem h]
      simp

/-- Three configured windows for concrete instantiation. -/
def wsABC : List WindowConfig :=
  [⟨"A", "bash", none⟩, ⟨"B", "bash", none⟩, ⟨"C", "bash", none⟩]

/-- Mover outcomes where window 1's move always hard-fails and the other
windows' moves succeed. -/
def moverFailB : Nat → Nat → CmdOutput :=
  fun i _ => if i = 1 then ⟨false, "hard failure"⟩ else ⟨true, ""⟩

/-- Launch outcomes where every launch succeeds. -/
def launchAllOk : Nat → Except String Unit := fun _ => Except.ok ()

theorem claim_C5_witness :
    (launchCommand wsABC (GridLayout.new 2 2 ⟨0, 0, 800, 600⟩) false
        launchAllOk moverFailB).2[1]? =
      some ("B",
        exceptOk (move_window_with_retry "B"
          (((GridLayout.new 2 2 ⟨0, 0, 800, 600⟩).calculate_all_positions
            wsABC.length).getD 1 default)
          (moverFailB 1) 3)) :=
  ((claim_C5 wsABC (GridLayout.new 2 2 ⟨0, 0, 800, 600⟩) launchAllOk
      moverFailB).2.2 1 (by decide)).2

end WslLauncher
